import Mathlib

/-!
Verification of the Dacoola client script (public/js/script.js).

This file shallowly embeds the pure logic of the client script:
the search relevance scorer (calculateSearchScore), the article card
renderer (renderArticleCardList), and the breaking-news banner slider
engine (renderBreakingNews and its nested handlers: updateSlidePosition,
handleTransitionEnd, changeSlide, goToSlide, resetAutoSlide and the
pointerdown / pointermove / pointerup gesture handlers).

DOM values become explicit record fields; JS strings become Lean
Strings (with the character-level helpers below standing in for
String.prototype.includes, toLowerCase and split); timestamps are
abstracted to integer milliseconds; JS numbers that only ever hold
integral values are modelled as Int / Nat.
-/

namespace Dacoola

/-- An article of the JSON feed.  Fields that may be absent in the feed are
Option; none stands for a missing (undefined) JSON field.  The ISO
timestamp string is abstracted to its epoch-milliseconds value. -/
structure Article where
  id : Option String := none
  title : Option String := none
  link : Option String := none
  image_url : Option String := none
  topic : Option String := none
  tags : Option (List String) := none
  summary_short : Option String := none
  is_breaking : Bool := false
  published_ms : Option Int := none
  trend_score : Option Int := none
deriving DecidableEq

/-- Lowercasing, as String.prototype.toLowerCase acts on ASCII data. -/
def jsToLower (s : String) : String := String.mk (s.data.map Char.toLower)

/-- Boolean test that the first character list is a prefix of the second. -/
def prefEq : List Char → List Char → Bool
  | [], _ => true
  | _ :: _, [] => false
  | a :: as, b :: bs => a == b && prefEq as bs

/-- Boolean test that the pattern occurs as a contiguous sublist. -/
def hasSub (pat : List Char) : List Char → Bool
  | [] => prefEq pat []
  | c :: rest => prefEq pat (c :: rest) || hasSub pat rest

/-- String.prototype.includes: substring containment (empty pattern always
matches, as in JS). -/
def jsIncludes (s pat : String) : Bool := hasSub pat.data s.data

/-- A word character in the sense of the JS regex \\w (ASCII data). -/
def isWordChar (c : Char) : Bool := c.isAlphanum || c == '_'

/-- Worker for splitTokens: walks the characters accumulating the current
(reversed) word-character run. -/
def tokenGo : List Char → List Char → List String
  | [], [] => []
  | [], cur => [String.mk cur.reverse]
  | c :: rest, cur =>
    if isWordChar c then tokenGo rest (c :: cur)
    else if cur.isEmpty then tokenGo rest []
    else String.mk cur.reverse :: tokenGo rest []

/-- Embeds query.split(/[\\s\\W]+/).filter(Boolean): the maximal runs of word
characters, with empty pieces dropped. -/
def splitTokens (s : String) : List String := tokenGo s.data []

/-- Local title of calculateSearchScore: article.title?.toLowerCase() || ''. -/
def titleOf (a : Article) : String := jsToLower (a.title.getD "")

/-- Local topic of calculateSearchScore: article.topic?.toLowerCase() || ''. -/
def topicOf (a : Article) : String := jsToLower (a.topic.getD "")

/-- Local tags of calculateSearchScore: (article.tags || []) lowercased. -/
def tagsOf (a : Article) : List String := (a.tags.getD []).map jsToLower

/-- Local summary of calculateSearchScore from article.summary_short. -/
def summaryOf (a : Article) : String := jsToLower (a.summary_short.getD "")

/-- The concatenated text searched for the all-tokens bonus. -/
def searchText (a : Article) : String :=
  titleOf a ++ " " ++ topicOf a ++ " " ++ String.intercalate " " (tagsOf a)
    ++ " " ++ summaryOf a

/-- The per-token loop of calculateSearchScore: 15 for a title hit, 8 topic,
5 any tag, 2 summary; empty tokens are skipped (the JS continue). -/
def tokenPoints (a : Article) (searchTokens : List String) : Nat :=
  searchTokens.foldl
    (fun score token =>
      if token = "" then score
      else
        score + (if jsIncludes (titleOf a) token then 15 else 0)
          + (if jsIncludes (topicOf a) token then 8 else 0)
          + (if (tagsOf a).any (fun tag => jsIncludes tag token) then 5 else 0)
          + (if jsIncludes (summaryOf a) token then 2 else 0))
    0

/-- The phrase-match bonus of calculateSearchScore: the tokens rejoined with
spaces, checked against title (50), else topic (25), else tags (15), else
summary (10). -/
def phraseBonus (a : Article) (searchTokens : List String) : Nat :=
  let qPhrase := String.intercalate " " searchTokens
  if jsIncludes (titleOf a) qPhrase then 50
  else if jsIncludes (topicOf a) qPhrase then 25
  else if (tagsOf a).any (fun tag => jsIncludes tag qPhrase) then 15
  else if jsIncludes (summaryOf a) qPhrase then 10
  else 0

/-- The all-tokens-present bonus of calculateSearchScore: 20 when every
search token occurs verbatim among the tokens of the concatenated text. -/
def allTokensBonus (a : Article) (searchTokens : List String) : Nat :=
  if searchTokens.all (fun token => (splitTokens (searchText a)).contains token)
  then 20 else 0

/-- calculateSearchScore of public/js/script.js: the sum of the per-token
points, the phrase bonus and the all-tokens bonus. -/
def calculateSearchScore (a : Article) (searchTokens : List String) : Nat :=
  tokenPoints a searchTokens + phraseBonus a searchTokens
    + allTokensBonus a searchTokens

/-- The search branch of loadGenericPageData: tokenize the lowercased query,
attach a score to every article, keep the strictly positive scores, and
sort descending by score (Array.prototype.sort is stable). -/
def searchSelect (arts : List Article) (query : String) : List (Article × Nat) :=
  let tokens := splitTokens (jsToLower query)
  (((arts.map (fun a => (a, calculateSearchScore a tokens))).filter
      (fun p => 0 < p.2)).mergeSort (fun p q => q.2 ≤ p.2))

/-- The article of the C8 example: title present, all other fields absent. -/
def articleAiChip : Article := { title := some "New AI Chip Unveiled" }

/-- JS truthiness of an optional string field: present and nonempty. -/
def jsTruthyStr : Option String → Bool
  | none => false
  | some s => s != ""

/-- The validity guard of renderArticleCardList:
the negation of (!article?.id || !article?.title || !article?.link). -/
def validArticle (a : Article) : Bool :=
  jsTruthyStr a.id && jsTruthyStr a.title && jsTruthyStr a.link

/-- The JS defaulting idiom (field || 'default') for string fields. -/
def jsOrDefault (o : Option String) (d : String) : String :=
  match o with
  | none => d
  | some s => if s = "" then d else s

/-- Template interpolation of a possibly-undefined value. -/
def strInterp : Option String → String
  | none => "undefined"
  | some s => s

/-- An article card as produced by renderArticleCardList. -/
structure Card where
  breaking : Bool
  image : String
  title : String
  topic : String
  href : String
  sidebarCard : Bool
deriving DecidableEq

/-- The breaking-label guard: is_breaking, a parseable timestamp, and
published within the last six hours (the JS real division by 36e5 compared
with 6 is equivalent to this integer comparison). -/
def showBreakingLabel (now : Int) (a : Article) : Bool :=
  a.is_breaking &&
    (match a.published_ms with
     | none => false
     | some t => decide (now - t ≤ 21600000))

/-- The card template of renderArticleCardList, with the JS defaults:
placeholder image, Untitled title, News topic. -/
def cardOf (sidebar : Bool) (now : Int) (a : Article) : Card :=
  { breaking := showBreakingLabel now a
    image := jsOrDefault a.image_url "https://via.placeholder.com/300x150?text=No+Image"
    title := jsOrDefault a.title "Untitled"
    topic := jsOrDefault a.topic "News"
    href := "/" ++ strInterp a.link
    sidebarCard := sidebar }

/-- renderArticleCardList of public/js/script.js: walk the articles in
order; an article failing the id/title/link guard produces no card and is
reported as a console warning (second component); every other article
produces exactly one card.  The embedding is a total function: no input
throws. -/
def renderArticleCardList (sidebar : Bool) (now : Int) :
    List Article → List Card × List Article
  | [] => ([], [])
  | a :: rest =>
    let r := renderArticleCardList sidebar now rest
    if validArticle a then (cardOf sidebar now a :: r.1, r.2) else (r.1, a :: r.2)

/-- The static data of one slider instance: the number of real slides
(totalOriginalSlides = slidesData.length) and the container pixel width
(sliderContainer.offsetWidth, taken as constant). -/
structure SliderCfg where
  N : Nat
  width : Int
deriving DecidableEq

/-- needsCloning of renderBreakingNews: slidesData.length > 1. -/
def sliderNeedsCloning (cfg : SliderCfg) : Bool := decide (1 < cfg.N)

/-- effectiveSlidesData.length: the slide count plus the two clones when
cloning applies. -/
def effectiveLen (cfg : SliderCfg) : Int :=
  if 1 < cfg.N then (cfg.N : Int) + 2 else (cfg.N : Int)

/-- effectiveSlidesData construction: when the slide set has more than one
element, a clone of the last element is prepended and a clone of the first
appended; otherwise the list is unchanged. -/
def buildEffective (slides : List Article) : List Article :=
  if 1 < slides.length then
    match slides with
    | [] => []
    | a :: rest => ((a :: rest).getLastD a) :: ((a :: rest) ++ [a])
  else slides

/-- The slider-control DOM built by renderBreakingNews: whether pagination
dots and prev/next buttons exist (both are created only inside the
totalOriginalSlides > 1 block). -/
structure SliderDom where
  hasPagination : Bool
  hasControls : Bool
deriving DecidableEq

/-- The controls renderBreakingNews appends for a given slide count. -/
def sliderDomOf (cfg : SliderCfg) : SliderDom :=
  { hasPagination := decide (1 < cfg.N), hasControls := decide (1 < cfg.N) }

/-- The mutable slider state: the two indices, the track transform offset in
pixels, whether the track currently has an animated transition, and whether
the autoplay interval is set. -/
structure SliderState where
  logicalIndex : Int
  displayIndex : Int
  trackOffset : Int
  trackAnimated : Bool
  autoplayOn : Bool
deriving DecidableEq

/-- updateSlidePosition: recompute the offset -displayIndex * width and set
the transition to animated or none. -/
def updateSlidePosition (cfg : SliderCfg) (animate : Bool) (s : SliderState) :
    SliderState :=
  { s with trackAnimated := animate, trackOffset := -s.displayIndex * cfg.width }

/-- resetAutoSlide: clear the interval, then set it again only when there is
more than one slide. -/
def resetAutoSlide (cfg : SliderCfg) (s : SliderState) : SliderState :=
  { s with autoplayOn := decide (1 < cfg.N) }

/-- handleTransitionEnd: the loop-seam correction.  On a clone slot (display
index 0, or effectiveSlidesData.length - 1) snap, without animation, to the
corresponding real slot (N with logical index N-1, or 1 with logical
index 0). -/
def handleTransitionEnd (cfg : SliderCfg) (s : SliderState) : SliderState :=
  if s.displayIndex = 0 ∧ 1 < cfg.N then
    updateSlidePosition cfg false
      { s with displayIndex := (cfg.N : Int), logicalIndex := (cfg.N : Int) - 1 }
  else if s.displayIndex = effectiveLen cfg - 1 ∧ 1 < cfg.N then
    updateSlidePosition cfg false { s with displayIndex := 1, logicalIndex := 0 }
  else s

/-- The JS remainder operator, which truncates toward zero (the sign of the
result follows the dividend). -/
def jsRem (a n : Int) : Int := if a < 0 then -((-a) % n) else a % n

/-- changeSlide(direction): advance the logical index modulo N; move the
display index by the direction when cloning, else set it to the logical
index; animate to the new position and reset autoplay. -/
def changeSlide (cfg : SliderCfg) (direction : Int) (s : SliderState) :
    SliderState :=
  let l := jsRem (s.logicalIndex + direction + (cfg.N : Int)) (cfg.N : Int)
  let s1 :=
    if 1 < cfg.N then
      { s with logicalIndex := l, displayIndex := s.displayIndex + direction }
    else { s with logicalIndex := l, displayIndex := l }
  resetAutoSlide cfg (updateSlidePosition cfg true s1)

/-- goToSlide(originalIndex): direct navigation from a pagination dot. -/
def goToSlide (cfg : SliderCfg) (i : Int) (s : SliderState) : SliderState :=
  let s1 :=
    { s with logicalIndex := i,
             displayIndex := if 1 < cfg.N then i + 1 else i }
  resetAutoSlide cfg (updateSlidePosition cfg true s1)

/-- The state right after renderBreakingNews finishes constructing a slider
with at least one slide: indices 0 (display 1 when cloning), the position
applied without animation, and the autoplay interval set (line 367 of the
script runs unconditionally inside the slidesData.length > 0 block). -/
def initState (cfg : SliderCfg) : SliderState :=
  let d : Int := if 1 < cfg.N then 1 else 0
  { logicalIndex := 0, displayIndex := d, trackOffset := -d * cfg.width,
    trackAnimated := false, autoplayOn := true }

/-- An advance together with the seam correction that runs once the CSS
transition completes (changeSlide registers handleTransitionEnd as the
transitionend listener; when no seam is crossed the listener leaves the
state unchanged, as does the uncloned case). -/
def completedAdvance (cfg : SliderCfg) (direction : Int) (s : SliderState) :
    SliderState :=
  handleTransitionEnd cfg (changeSlide cfg direction s)

/-- A dot navigation together with its transition-end seam correction. -/
def completedGoTo (cfg : SliderCfg) (i : Int) (s : SliderState) : SliderState :=
  handleTransitionEnd cfg (goToSlide cfg i s)

/-- The slider states reachable from construction through completed
operations: advances by one slide in either direction (the only directions
the script ever passes), direct dot navigations, and stray transition-end
seam corrections. -/
inductive ReachableSlider (cfg : SliderCfg) : SliderState → Prop where
  | init : ReachableSlider cfg (initState cfg)
  | advance (s : SliderState) (d : Int) (hd : d = 1 ∨ d = -1) :
      ReachableSlider cfg s → ReachableSlider cfg (completedAdvance cfg d s)
  | goTo (s : SliderState) (i : Nat) (hi : i < cfg.N) :
      ReachableSlider cfg s → ReachableSlider cfg (completedGoTo cfg (i : Int) s)
  | seam (s : SliderState) :
      ReachableSlider cfg s → ReachableSlider cfg (handleTransitionEnd cfg s)

/-- The index part of the slider invariant: the logical index is a real
slide position and the display index sits one clone slot further exactly
when cloning applies. -/
def GoodState (cfg : SliderCfg) (s : SliderState) : Prop :=
  0 ≤ s.logicalIndex ∧ s.logicalIndex < (cfg.N : Int) ∧
    s.displayIndex =
      (if 1 < cfg.N then s.logicalIndex + 1 else s.logicalIndex)

/-- Iterated forward completed advances (the autoplay loop). -/
def advanceIter (cfg : SliderCfg) : Nat → SliderState → SliderState
  | 0, s => s
  | k + 1, s => completedAdvance cfg 1 (advanceIter cfg k s)

/-- What a pointer-event target resolves to inside the slider container.
In the DOM built by renderBreakingNews the pagination/arrow controls are
siblings of the track and the slide anchors contain no controls, so
closest('.slider-control, .slider-pagination') and closest('a.slider-item')
can never both succeed: the three cases are mutually exclusive.  An anchor
carries its href property. -/
inductive PointerTarget where
  | control
  | anchor (href : String)
  | other
deriving DecidableEq

/-- targetSlideElement.href of the release handler: the href of the anchor
the target resolves to, when truthy. -/
def anchorHrefOf : PointerTarget → Option String
  | PointerTarget.anchor h => if h = "" then none else some h
  | _ => none

/-- One full pointer gesture on the slider container: the pointerdown
(clientX, timeStamp, button, and whether the target sat on a control), the
clientX of each pointermove while down, and the release event
(pointerup / pointerleave / pointercancel). -/
structure Gesture where
  downX : Int
  downTime : Int
  downButton : Nat
  downOnControl : Bool
  moves : List Int
  upX : Int
  upTime : Int
  upButton : Nat
  upTarget : PointerTarget
deriving DecidableEq

/-- currentTrackPixelOffset captured by the pointerdown handler. -/
def dragBase (cfg : SliderCfg) (s : SliderState) : Int :=
  -s.displayIndex * cfg.width

/-- The state changes of the pointerdown handler once its guards pass:
transition set to none and the autoplay interval cleared (the indices and
the transform are untouched). -/
def downState (s : SliderState) : SliderState :=
  { s with trackAnimated := false, autoplayOn := false }

/-- The pointermove handler for one move event: mark the gesture as a drag
when the displacement from the down point exceeds 5 pixels
(DRAG_START_THRESHOLD), and put the track at the captured base offset plus
the current displacement. -/
def applyMove (base dx : Int) (p : SliderState × Bool) (x : Int) :
    SliderState × Bool :=
  ({ p.1 with trackOffset := base + (x - dx) },
   p.2 || decide (5 < (x - dx).natAbs))

/-- The observable outcome of handlePointerRelease: the state it leaves, the
href it navigated to (if any), and the direction it passed to changeSlide
(if any). -/
structure ReleaseOutcome where
  state : SliderState
  nav : Option String
  advanced : Option Int
deriving DecidableEq

/-- handlePointerRelease, assuming pointerIsDown (the flag set by the down
handler).  A release on a control only restarts autoplay; otherwise a
not-dragged, sub-250-ms (CLICK_TIME_THRESHOLD_MS) primary-button release
navigates to the target anchor when one resolves with a truthy href, or
snaps back; otherwise a displacement of at least 50 pixels
(SWIPE_ACTION_THRESHOLD_PIXELS) advances against the displacement sign;
otherwise the track snaps back.  Every branch except the navigation ends in
resetAutoSlide. -/
def releaseRun (cfg : SliderCfg) (s2 : SliderState) (dragged : Bool)
    (g : Gesture) : ReleaseOutcome :=
  if g.upTarget = PointerTarget.control then ⟨resetAutoSlide cfg s2, none, none⟩
  else if !dragged && decide (g.upTime - g.downTime < 250) && g.upButton == 0 then
    match anchorHrefOf g.upTarget with
    | some h => ⟨s2, some h, none⟩
    | none => ⟨resetAutoSlide cfg (updateSlidePosition cfg true s2), none, none⟩
  else if 50 ≤ (g.upX - g.downX).natAbs then
    if g.upX - g.downX < 0 then
      ⟨resetAutoSlide cfg (changeSlide cfg 1 s2), none, some 1⟩
    else ⟨resetAutoSlide cfg (changeSlide cfg (-1) s2), none, some (-1)⟩
  else ⟨resetAutoSlide cfg (updateSlidePosition cfg true s2), none, none⟩

/-- Whether the pointermove stream marks the gesture as a drag. -/
def draggedOf (g : Gesture) : Bool :=
  g.moves.any (fun x => decide (5 < (x - g.downX).natAbs))

/-- A whole gesture processed by the three pointer handlers.  A non-primary
button or a down on a control makes the down handler return before setting
pointerIsDown, so the move and release handlers ignore the gesture
entirely. -/
def runGesture (cfg : SliderCfg) (s : SliderState) (g : Gesture) :
    ReleaseOutcome :=
  if g.downButton ≠ 0 ∨ g.downOnControl then ⟨s, none, none⟩
  else
    let p := g.moves.foldl (applyMove (dragBase cfg s) g.downX) (downState s, false)
    releaseRun cfg p.1 p.2 g

theorem hasSub_nil_left (l : List Char) : hasSub [] l = true := by
  cases l <;> simp [hasSub, prefEq]

theorem jsIncludes_empty_pat (s : String) : jsIncludes s "" = true :=
  hasSub_nil_left s.data

theorem score_empty_tokens (a : Article) : calculateSearchScore a [] = 70 := by
  simp [calculateSearchScore, tokenPoints, phraseBonus, allTokensBonus,
    jsIncludes_empty_pat, String.intercalate]

theorem searchSelect_punct_keeps_all (arts : List Article) :
    ((searchSelect arts "?!,.").map Prod.fst).Perm arts := by
  have htok : splitTokens (jsToLower "?!,.") = [] := rfl
  simp only [searchSelect, htok]
  have hfilter :
      ((arts.map (fun a => (a, calculateSearchScore a []))).filter
          (fun p => 0 < p.2))
        = arts.map fun a => (a, calculateSearchScore a []) := by
    apply List.filter_eq_self.mpr
    intro p hp
    obtain ⟨a, -, rfl⟩ := List.mem_map.mp hp
    simp [score_empty_tokens]
  simp only [hfilter]
  have hperm :=
    (List.mergeSort_perm (arts.map fun a => (a, calculateSearchScore a []))
      fun p q => decide (q.2 ≤ p.2)).map Prod.fst
  simpa [List.map_map, Function.comp_def] using hperm

/-- Claim C8: for the token list ["ai", "chip"] and an article whose title
is "New AI Chip Unveiled" with topic, tags and summary empty,
calculateSearchScore returns exactly 100, composed of 15 per token found in
the title (30 total), 50 for the full phrase in the title, and 20 because
every token appears in the concatenated text. -/
theorem searchScore_aiChip_example :
    tokenPoints articleAiChip ["ai", "chip"] = 30 ∧
    phraseBonus articleAiChip ["ai", "chip"] = 50 ∧
    allTokensBonus articleAiChip ["ai", "chip"] = 20 ∧
    calculateSearchScore articleAiChip ["ai", "chip"] = 100 := by
  refine ⟨by decide, by decide, by decide, by decide⟩

/-- Claim C10: with an empty search-token list every article scores exactly
70 (never 0): the rejoined query phrase is the empty string, which every
title contains (phrase bonus 50, even for an empty title), and the
all-tokens bonus 20 holds vacuously; hence a punctuation-only query, whose
tokenization is empty, gives every article a positive score and the search
page excludes none from the results. -/
theorem emptyTokens_score_seventy :
    (∀ a : Article,
      phraseBonus a [] = 50 ∧ allTokensBonus a [] = 20 ∧
        calculateSearchScore a [] = 70) ∧
    splitTokens (jsToLower "?!,.") = [] ∧
    (∀ arts : List Article, ((searchSelect arts "?!,.").map Prod.fst).Perm arts) := by
  refine ⟨fun a => ⟨?_, ?_, score_empty_tokens a⟩, rfl, searchSelect_punct_keeps_all⟩
  · simp [phraseBonus, jsIncludes_empty_pat, String.intercalate]
  · simp [allTokensBonus]

/-- Claim C9: renderArticleCardList skips exactly the articles whose id,
title or link is missing (or empty, the JS falsy check), reporting each
with a warning, and renders every other article as one card, defaulting a
missing image to the placeholder URL, a missing title to Untitled and a
missing topic to News; the embedding is a total function, so no input
throws. -/
theorem cardList_skips_invalid_and_defaults :
    (∀ (sb : Bool) (now : Int) (arts : List Article),
      (renderArticleCardList sb now arts).1
          = (arts.filter (fun a => validArticle a)).map (cardOf sb now) ∧
        (renderArticleCardList sb now arts).2
          = arts.filter (fun a => !validArticle a)) ∧
    (∀ (sb : Bool) (now : Int) (a : Article),
      (cardOf sb now { a with image_url := none }).image
          = "https://via.placeholder.com/300x150?text=No+Image" ∧
        (cardOf sb now { a with title := none }).title = "Untitled" ∧
        (cardOf sb now { a with topic := none }).topic = "News") := by
  constructor
  · intro sb now arts
    induction arts with
    | nil => simp [renderArticleCardList]
    | cons a rest ih =>
      by_cases h : validArticle a <;>
        simp [renderArticleCardList, List.filter_cons, h, ih.1, ih.2]
  · intro sb now a
    refine ⟨?_, ?_, ?_⟩ <;> simp [cardOf, jsOrDefault]

theorem add_cancel_emod (x n : Int) : (x + n) % n = x % n := by
  simpa using Int.add_mul_emod_self_left x n 1

theorem jsRem_of_nonneg (a n : Int) (h : 0 ≤ a) : jsRem a n = a % n := by
  unfold jsRem
  rw [if_neg (by omega)]

theorem jsRem_step (N l d : Int) (hN : 0 < N) (h0 : 0 ≤ l) (h1 : l < N)
    (hd : d = 1 ∨ d = -1) :
    jsRem (l + d + N) N =
      if l + d < 0 then N - 1 else if l + d < N then l + d else 0 := by
  have hlow : -1 ≤ l + d := by rcases hd with rfl | rfl <;> omega
  have hhigh : l + d ≤ N := by rcases hd with rfl | rfl <;> omega
  rw [jsRem_of_nonneg _ _ (by omega)]
  by_cases hneg : l + d < 0
  · have he : l + d + N = N - 1 := by omega
    rw [he, if_pos hneg, Int.emod_eq_of_lt (by omega) (by omega)]
  · by_cases hlt : l + d < N
    · rw [if_neg hneg, if_pos hlt, add_cancel_emod,
        Int.emod_eq_of_lt (by omega) hlt]
    · have he : l + d + N = N + N := by omega
      rw [he, if_neg hneg, if_neg hlt, add_cancel_emod, Int.emod_self]

theorem goodState_init (cfg : SliderCfg) (hN : 1 ≤ cfg.N) :
    GoodState cfg (initState cfg) := by
  unfold GoodState initState
  by_cases hbig : 1 < cfg.N <;> simp [hbig] <;> omega

theorem goodState_completedAdvance (cfg : SliderCfg) (hN : 1 ≤ cfg.N)
    (d : Int) (hd : d = 1 ∨ d = -1) (s : SliderState)
    (hs : GoodState cfg s) : GoodState cfg (completedAdvance cfg d s) := by
  obtain ⟨h0, h1, h2⟩ := hs
  have hNpos : (0 : Int) < cfg.N := by omega
  have hrem := jsRem_step (cfg.N : Int) s.logicalIndex d hNpos h0 h1 hd
  by_cases hbig : 1 < cfg.N
  · rw [if_pos hbig] at h2
    rcases hd with rfl | rfl
    · by_cases hw : s.logicalIndex = (cfg.N : Int) - 1
      · rw [if_neg (by omega), if_neg (by omega)] at hrem
        simp [completedAdvance, changeSlide, hrem, hbig, resetAutoSlide,
          updateSlidePosition, handleTransitionEnd, effectiveLen, GoodState, h2]
        split_ifs <;> simp_all <;> omega
      · rw [if_neg (by omega), if_pos (by omega)] at hrem
        simp [completedAdvance, changeSlide, hrem, hbig, resetAutoSlide,
          updateSlidePosition, handleTransitionEnd, effectiveLen, GoodState, h2]
        split_ifs <;> simp_all <;> omega
    · by_cases hw : s.logicalIndex = 0
      · rw [if_pos (by omega)] at hrem
        simp [completedAdvance, changeSlide, hrem, hbig, resetAutoSlide,
          updateSlidePosition, handleTransitionEnd, effectiveLen, GoodState, h2]
        split_ifs <;> simp_all <;> omega
      · rw [if_neg (by omega), if_pos (by omega)] at hrem
        simp [completedAdvance, changeSlide, hrem, hbig, resetAutoSlide,
          updateSlidePosition, handleTransitionEnd, effectiveLen, GoodState, h2]
        split_ifs <;> simp_all <;> omega
  · have hone : cfg.N = 1 := by omega
    have hl : s.logicalIndex = 0 := by omega
    have hd1 : 0 ≤ s.logicalIndex + d + (cfg.N : Int) := by
      rcases hd with rfl | rfl <;> omega
    have hrem0 : jsRem (s.logicalIndex + d + (cfg.N : Int)) (cfg.N : Int) = 0 := by
      rw [jsRem_of_nonneg _ _ hd1]
      simp [hone, Int.emod_one]
    simp [completedAdvance, changeSlide, hrem0, hbig, resetAutoSlide,
      updateSlidePosition, handleTransitionEnd, effectiveLen, GoodState]
    omega

theorem goodState_completedGoTo (cfg : SliderCfg) (hN : 1 ≤ cfg.N)
    (i : Nat) (hi : i < cfg.N) (s : SliderState) (hs : GoodState cfg s) :
    GoodState cfg (completedGoTo cfg (i : Int) s) := by
  by_cases hbig : 1 < cfg.N
  · simp [completedGoTo, goToSlide, resetAutoSlide, updateSlidePosition,
      handleTransitionEnd, effectiveLen, GoodState, hbig]
    split_ifs <;> simp_all <;> omega
  · simp [completedGoTo, goToSlide, resetAutoSlide, updateSlidePosition,
      handleTransitionEnd, effectiveLen, GoodState, hbig]
    omega

theorem goodState_seam (cfg : SliderCfg) (hN : 1 ≤ cfg.N) (s : SliderState)
    (hs : GoodState cfg s) : GoodState cfg (handleTransitionEnd cfg s) := by
  obtain ⟨h0, h1, h2⟩ := hs
  unfold handleTransitionEnd
  by_cases hbig : 1 < cfg.N
  · rw [if_pos hbig] at h2
    rw [if_neg (by rintro ⟨hc, -⟩; omega),
      if_neg (by rintro ⟨hc, -⟩; rw [effectiveLen, if_pos hbig] at hc; omega)]
    exact ⟨h0, h1, by rw [if_pos hbig]; exact h2⟩
  · rw [if_neg (by rintro ⟨-, hc⟩; exact hbig hc),
      if_neg (by rintro ⟨-, hc⟩; exact hbig hc)]
    exact ⟨h0, h1, h2⟩

theorem reachable_goodState (cfg : SliderCfg) (hN : 1 ≤ cfg.N)
    (s : SliderState) (hr : ReachableSlider cfg s) : GoodState cfg s := by
  induction hr with
  | init => exact goodState_init cfg hN
  | advance t d hd _ ih => exact goodState_completedAdvance cfg hN d hd t ih
  | goTo t i hi _ ih => exact goodState_completedGoTo cfg hN i hi t ih
  | seam t _ ih => exact goodState_seam cfg hN t ih

/-- Claim C1: for every slider built from a slide set of N articles, the
relation displayIndex = needsCloning ? logicalIndex + 1 : logicalIndex
(with needsCloning true iff N > 1) holds after construction and again after
every completed operation (advance, direct navigation, seam correction);
in particular, for N ≥ 2, displayIndex = 1 and logicalIndex = 0 immediately
after construction. -/
theorem slider_index_invariant (cfg : SliderCfg) (hN : 1 ≤ cfg.N) :
    (∀ s : SliderState, ReachableSlider cfg s →
      s.displayIndex =
        (if sliderNeedsCloning cfg then s.logicalIndex + 1
         else s.logicalIndex)) ∧
    (2 ≤ cfg.N →
      (initState cfg).displayIndex = 1 ∧ (initState cfg).logicalIndex = 0) := by
  constructor
  · intro s hr
    have h := (reachable_goodState cfg hN s hr).2.2
    simpa [sliderNeedsCloning] using h
  · intro h2
    have hbig : 1 < cfg.N := by omega
    exact ⟨by simp [initState, hbig], rfl⟩

theorem slider_index_invariant_witness :
    (initState ⟨2, 300⟩).displayIndex = 1 ∧
      (initState ⟨2, 300⟩).logicalIndex = 0 :=
  (slider_index_invariant ⟨2, 300⟩ (by decide)).2 (by decide)

theorem advanceIter_closed (cfg : SliderCfg) (hbig : 1 < cfg.N) (k : Nat) :
    advanceIter cfg k (initState cfg) =
      { logicalIndex := ((k % cfg.N : Nat) : Int),
        displayIndex := ((k % cfg.N : Nat) : Int) + 1,
        trackOffset := -(((k % cfg.N : Nat) : Int) + 1) * cfg.width,
        trackAnimated := decide (k % cfg.N ≠ 0),
        autoplayOn := true } := by
  have hNpos : 0 < cfg.N := by omega
  induction k with
  | zero => simp [advanceIter, initState, hbig]
  | succ k ih =>
    rw [advanceIter, ih]
    have hjlt : k % cfg.N < cfg.N := Nat.mod_lt _ hNpos
    have hsucc : (k + 1) % cfg.N = (k % cfg.N + 1) % cfg.N := by
      rw [Nat.mod_add_mod]
    have hrem := jsRem_step (cfg.N : Int) ((k % cfg.N : Nat) : Int) 1
      (by omega) (by omega) (by omega) (Or.inl rfl)
    by_cases hw : k % cfg.N + 1 < cfg.N
    · rw [if_neg (by omega), if_pos (by omega)] at hrem
      have hmod : (k + 1) % cfg.N = k % cfg.N + 1 := by
        rw [hsucc, Nat.mod_eq_of_lt hw]
      simp only [completedAdvance, changeSlide, hrem, if_pos hbig,
        resetAutoSlide, updateSlidePosition, handleTransitionEnd,
        effectiveLen, hmod]
      rw [if_neg (by rintro ⟨hc, -⟩; omega),
        if_neg (by rintro ⟨hc, -⟩; omega)]
      simp [SliderState.mk.injEq] <;> omega
    · have heq : k % cfg.N + 1 = cfg.N := by omega
      rw [if_neg (by omega), if_neg (by omega)] at hrem
      have hmod : (k + 1) % cfg.N = 0 := by
        rw [hsucc, heq, Nat.mod_self]
      simp only [completedAdvance, changeSlide, hrem, if_pos hbig,
        resetAutoSlide, updateSlidePosition, handleTransitionEnd,
        effectiveLen, hmod]
      rw [if_neg (by rintro ⟨hc, -⟩; omega), if_pos ⟨by omega, hbig⟩]
      simp [SliderState.mk.injEq, updateSlidePosition] <;> omega

/-- Claim C3: for every slide set of N ≥ 2 slides, N forward completed
advances from the freshly constructed state return it to logicalIndex 0
and displayIndex 1 with the track at the initial visual position, and the
transition-end seam correction maps display index 0 to N (logical N-1) and
display index N+1 to 1 (logical 0), in both cases without animation. -/
theorem slider_loop_property (cfg : SliderCfg) (h2 : 2 ≤ cfg.N) :
    (advanceIter cfg cfg.N (initState cfg)).logicalIndex = 0 ∧
    (advanceIter cfg cfg.N (initState cfg)).displayIndex = 1 ∧
    (advanceIter cfg cfg.N (initState cfg)).trackOffset
        = (initState cfg).trackOffset ∧
    (∀ s : SliderState, s.displayIndex = 0 →
      (handleTransitionEnd cfg s).displayIndex = (cfg.N : Int) ∧
      (handleTransitionEnd cfg s).logicalIndex = (cfg.N : Int) - 1 ∧
      (handleTransitionEnd cfg s).trackAnimated = false) ∧
    (∀ s : SliderState, s.displayIndex = (cfg.N : Int) + 1 →
      (handleTransitionEnd cfg s).displayIndex = 1 ∧
      (handleTransitionEnd cfg s).logicalIndex = 0 ∧
      (handleTransitionEnd cfg s).trackAnimated = false) := by
  have hbig : 1 < cfg.N := by omega
  have hclosed := advanceIter_closed cfg hbig cfg.N
  rw [hclosed]
  refine ⟨by simp, by simp, by simp [initState, hbig], ?_, ?_⟩
  · intro s hs
    unfold handleTransitionEnd
    rw [if_pos ⟨hs, hbig⟩]
    exact ⟨rfl, rfl, rfl⟩
  · intro s hs
    unfold handleTransitionEnd
    rw [if_neg (by rintro ⟨hc, -⟩; omega),
      if_pos ⟨by rw [hs, effectiveLen, if_pos hbig]; ring, hbig⟩]
    exact ⟨rfl, rfl, rfl⟩

theorem slider_loop_property_witness :
    (advanceIter ⟨2, 300⟩ 2 (initState ⟨2, 300⟩)).logicalIndex = 0 ∧
    (handleTransitionEnd ⟨2, 300⟩
        { logicalIndex := 1, displayIndex := 0, trackOffset := 0,
          trackAnimated := true, autoplayOn := true }).displayIndex = 2 :=
  ⟨(slider_loop_property ⟨2, 300⟩ (by decide)).1,
   ((slider_loop_property ⟨2, 300⟩ (by decide)).2.2.2.1 _ rfl).1⟩

/-- Claim C4, checked against the code: with exactly one slide the slider
is built without cloned slides (the effective list equals the slide set)
and without pagination dots or prev/next controls, but - contrary to the
claim and to the unreachable slidesData.length === 1 branch of
renderBreakingNews - construction does start the 7-second autoplay
interval, because the guard on the interactive block is
slidesData.length > 0 and line 367 runs unconditionally inside it. -/
theorem single_slide_construction (a : Article) (w : Int) :
    buildEffective [a] = [a] ∧
    sliderDomOf ⟨1, w⟩ = { hasPagination := false, hasControls := false } ∧
    (initState ⟨1, w⟩).autoplayOn = true := by
  refine ⟨?_, rfl, rfl⟩
  simp [buildEffective]

theorem foldMoves_fields (base dx : Int) (ms : List Int)
    (p : SliderState × Bool) :
    (ms.foldl (applyMove base dx) p).1.logicalIndex = p.1.logicalIndex ∧
    (ms.foldl (applyMove base dx) p).1.displayIndex = p.1.displayIndex ∧
    (ms.foldl (applyMove base dx) p).1.trackAnimated = p.1.trackAnimated ∧
    (ms.foldl (applyMove base dx) p).1.autoplayOn = p.1.autoplayOn := by
  induction ms generalizing p with
  | nil => exact ⟨rfl, rfl, rfl, rfl⟩
  | cons x rest ih => simpa [applyMove] using ih (applyMove base dx p x)

theorem foldMoves_dragged (base dx : Int) (ms : List Int)
    (p : SliderState × Bool) :
    (ms.foldl (applyMove base dx) p).2
      = (p.2 || ms.any fun x => decide (5 < (x - dx).natAbs)) := by
  induction ms generalizing p with
  | nil => simp
  | cons x rest ih =>
    simp [List.foldl_cons, List.any_cons, applyMove, ih, Bool.or_assoc]

theorem releaseRun_autoplay (cfg : SliderCfg) (s2 : SliderState)
    (dragged : Bool) (g : Gesture)
    (hnav : (releaseRun cfg s2 dragged g).nav = none) :
    (releaseRun cfg s2 dragged g).state.autoplayOn = decide (1 < cfg.N) := by
  unfold releaseRun at hnav ⊢
  by_cases htar : g.upTarget = PointerTarget.control
  · rw [if_pos htar]
    rfl
  · rw [if_neg htar] at hnav ⊢
    by_cases hcond :
        (!dragged && decide (g.upTime - g.downTime < 250)
          && (g.upButton == 0)) = true
    · rw [if_pos hcond] at hnav ⊢
      cases hah : anchorHrefOf g.upTarget with
      | some x => rw [hah] at hnav; simp at hnav
      | none => rfl
    · rw [if_neg hcond] at hnav ⊢
      split_ifs <;> rfl

/-- Claim C2: a pointer gesture on the slider (primary button, not starting
on a control) whose horizontal displacement stays under 5 pixels - at every
pointermove and at release, so the move handler never marks it as a drag -
whose elapsed time is under 250 ms, and whose release target resolves to a
slide anchor (in the rendered DOM a slide anchor always carries a nonempty
href), navigates the browser to that anchor's link, performs no Advance
(both indices are unchanged), and does not restart the autoplay timer. -/
theorem click_navigates (cfg : SliderCfg) (s : SliderState) (g : Gesture)
    (h : String)
    (hdb : g.downButton = 0) (hdc : g.downOnControl = false)
    (hmoves : ∀ x ∈ g.moves, (x - g.downX).natAbs < 5)
    (hdisp : (g.upX - g.downX).natAbs < 5)
    (ht : g.upTime - g.downTime < 250) (hub : g.upButton = 0)
    (htar : g.upTarget = PointerTarget.anchor h) (hh : h ≠ "") :
    (runGesture cfg s g).nav = some h ∧
    (runGesture cfg s g).advanced = none ∧
    (runGesture cfg s g).state.logicalIndex = s.logicalIndex ∧
    (runGesture cfg s g).state.displayIndex = s.displayIndex ∧
    (runGesture cfg s g).state.autoplayOn = false := by
  have hdrag :
      (g.moves.foldl (applyMove (dragBase cfg s) g.downX)
        (downState s, false)).2 = false := by
    rw [foldMoves_dragged]
    simp only [Bool.false_or, List.any_eq_false, decide_eq_true_eq]
    intro x hx
    have := hmoves x hx
    simp
    omega
  have hfields :=
    foldMoves_fields (dragBase cfg s) g.downX g.moves (downState s, false)
  simp only [runGesture]
  rw [if_neg (by simp [hdb, hdc])]
  unfold releaseRun
  rw [if_neg (by rw [htar]; exact fun hc => PointerTarget.noConfusion hc)]
  rw [if_pos (by simp [hdrag, ht, hub])]
  rw [htar]
  simp only [anchorHrefOf]
  rw [if_neg hh]
  exact ⟨rfl, rfl, hfields.1, hfields.2.1, hfields.2.2.2⟩

theorem click_navigates_witness :
    (runGesture ⟨3, 100⟩ (initState ⟨3, 100⟩)
        ⟨0, 0, 0, false, [2], 3, 100, 0, PointerTarget.anchor "/a.html"⟩).nav
        = some "/a.html" ∧
    (runGesture ⟨3, 100⟩ (initState ⟨3, 100⟩)
        ⟨0, 0, 0, false, [2], 3, 100, 0,
          PointerTarget.anchor "/a.html"⟩).state.autoplayOn = false := by
  have h := click_navigates ⟨3, 100⟩ (initState ⟨3, 100⟩)
    ⟨0, 0, 0, false, [2], 3, 100, 0, PointerTarget.anchor "/a.html"⟩ "/a.html"
    rfl rfl (by decide) (by decide) (by decide) rfl rfl (by decide)
  exact ⟨h.1, h.2.2.2.2⟩

/-- Claim C5 counterexample: a pointer release that resolves as a click on
a slide anchor completes (the engine navigates) yet leaves the autoplay
interval cleared, so not every pointer release restarts the autoplay
timer. -/
theorem release_without_autoplay_restart :
    (runGesture ⟨3, 100⟩ (initState ⟨3, 100⟩)
        ⟨0, 0, 0, false, [], 0, 100, 0, PointerTarget.anchor "/x.html"⟩).nav
        = some "/x.html" ∧
    (runGesture ⟨3, 100⟩ (initState ⟨3, 100⟩)
        ⟨0, 0, 0, false, [], 0, 100, 0,
          PointerTarget.anchor "/x.html"⟩).state.autoplayOn = false := by
  decide

/-- Claim C5 (amended): the autoplay timer and a pointer drag are never
active at the same time: every pointer-down on the slider (primary button,
not on a control) clears the autoplay timer before any drag processing, the
timer stays cleared through every pointermove, and every pointer release
(up, leave, or cancel) of a multi-slide slider restarts the autoplay timer
unless the release resolves as a click that navigates away. -/
theorem autoplay_drag_mutual_exclusion (cfg : SliderCfg) (s : SliderState)
    (g : Gesture) (hdb : g.downButton = 0) (hdc : g.downOnControl = false)
    (hN : 1 < cfg.N) :
    (downState s).autoplayOn = false ∧
    (g.moves.foldl (applyMove (dragBase cfg s) g.downX)
        (downState s, false)).1.autoplayOn = false ∧
    ((runGesture cfg s g).nav = none →
      (runGesture cfg s g).state.autoplayOn = true) := by
  refine ⟨rfl, (foldMoves_fields _ _ _ _).2.2.2, ?_⟩
  intro hnav
  simp only [runGesture] at hnav ⊢
  rw [if_neg (by simp [hdb, hdc])] at hnav ⊢
  rw [releaseRun_autoplay _ _ _ _ hnav]
  exact decide_eq_true hN

theorem autoplay_drag_mutual_exclusion_witness :
    (runGesture ⟨3, 100⟩ (initState ⟨3, 100⟩)
        ⟨0, 0, 0, false, [-30, -60], -60, 400, 0,
          PointerTarget.other⟩).state.autoplayOn = true :=
  (autoplay_drag_mutual_exclusion ⟨3, 100⟩ (initState ⟨3, 100⟩)
      ⟨0, 0, 0, false, [-30, -60], -60, 400, 0, PointerTarget.other⟩
      rfl rfl (by decide)).2.2 (by decide)

/-- Claim C6 counterexample: a gesture with net displacement -60 at release
(at least 50 pixels) that does not resolve as a click - it navigates
nowhere - yet performs no Advance: with no pointermove the gesture is never
marked as a drag, so a fast release on a non-anchor target enters the click
branch, which falls through to an animated snap-back instead of reaching
the swipe check. -/
theorem fast_jump_release_no_advance :
    (50 ≤ ((-60 : Int) - 0).natAbs) ∧
    (runGesture ⟨3, 100⟩ (initState ⟨3, 100⟩)
        ⟨0, 0, 0, false, [], -60, 100, 0, PointerTarget.other⟩).nav = none ∧
    (runGesture ⟨3, 100⟩ (initState ⟨3, 100⟩)
        ⟨0, 0, 0, false, [], -60, 100, 0, PointerTarget.other⟩).advanced
        = none := by
  decide

/-- Claim C6 (amended): for every pointer gesture with net horizontal
displacement of at least 50 pixels at release whose release target is not
on a control and which does not enter the click branch (it was marked as a
drag, or its elapsed time is at least 250 ms), exactly one Advance is
performed, in the direction opposite the displacement sign: negative
displacement gives changeSlide(1), positive gives changeSlide(-1),
regardless of the intermediate pointer path; no navigation occurs. -/
theorem swipe_advances (cfg : SliderCfg) (s : SliderState) (g : Gesture)
    (hdb : g.downButton = 0) (hdc : g.downOnControl = false)
    (hd : 50 ≤ (g.upX - g.downX).natAbs)
    (htar : g.upTarget ≠ PointerTarget.control)
    (hnc : draggedOf g = true ∨ 250 ≤ g.upTime - g.downTime) :
    (runGesture cfg s g).advanced
        = some (if g.upX - g.downX < 0 then 1 else -1) ∧
    (runGesture cfg s g).nav = none := by
  have hdragged :
      (g.moves.foldl (applyMove (dragBase cfg s) g.downX)
        (downState s, false)).2 = draggedOf g := by
    rw [foldMoves_dragged]
    simp [draggedOf]
  simp only [runGesture]
  rw [if_neg (by simp [hdb, hdc])]
  unfold releaseRun
  rw [if_neg htar]
  have hcond :
      (!(g.moves.foldl (applyMove (dragBase cfg s) g.downX)
          (downState s, false)).2
        && decide (g.upTime - g.downTime < 250) && (g.upButton == 0))
        = false := by
    rw [hdragged]
    rcases hnc with hdr | htm
    · simp [hdr]
    · simp [decide_eq_false (by omega : ¬(g.upTime - g.downTime < 250))]
  rw [hcond]
  simp only [Bool.false_eq_true, if_false]
  rw [if_pos hd]
  by_cases hsign : g.upX - g.downX < 0
  · rw [if_pos hsign, if_pos hsign]
    exact ⟨rfl, rfl⟩
  · rw [if_neg hsign, if_neg hsign]
    exact ⟨rfl, rfl⟩

theorem swipe_advances_witness :
    (runGesture ⟨3, 100⟩ (initState ⟨3, 100⟩)
        ⟨0, 0, 0, false, [-30, -60], -60, 400, 0,
          PointerTarget.other⟩).advanced = some 1 :=
  ((swipe_advances ⟨3, 100⟩ (initState ⟨3, 100⟩)
      ⟨0, 0, 0, false, [-30, -60], -60, 400, 0, PointerTarget.other⟩
      rfl rfl (by decide) (by decide) (Or.inl (by decide))).1).trans
    (by decide)

/-- Claim C7 counterexample: a drag of 30 pixels (between 5 and 50, not a
qualifying click) released over a control element leaves logicalIndex
unchanged but does not restore the track position: the control early-return
branch of handlePointerRelease only restarts autoplay, so the track stays
at the dragged offset -70 instead of the pre-drag
-displayIndex x containerWidth = -100. -/
theorem control_release_skips_snapback :
    (5 ≤ ((30 : Int) - 0).natAbs ∧ ((30 : Int) - 0).natAbs < 50) ∧
    (runGesture ⟨3, 100⟩ (initState ⟨3, 100⟩)
        ⟨0, 0, 0, false, [30], 30, 300, 0, PointerTarget.control⟩).nav
        = none ∧
    (runGesture ⟨3, 100⟩ (initState ⟨3, 100⟩)
        ⟨0, 0, 0, false, [30], 30, 300, 0,
          PointerTarget.control⟩).state.trackOffset = -70 ∧
    -((runGesture ⟨3, 100⟩ (initState ⟨3, 100⟩)
        ⟨0, 0, 0, false, [30], 30, 300, 0,
          PointerTarget.control⟩).state.displayIndex) * 100 = -100 := by
  decide

/-- Claim C7 (amended): for every pointer gesture with horizontal
displacement between 5 and 50 pixels at release that does not qualify as a
click (no navigation results) and whose release target is not on a control
element, logicalIndex and displayIndex are unchanged, no Advance occurs,
and the track is restored to the pre-drag position
-displayIndex x containerWidth with an animated snap-back. -/
theorem snapback_restores_position (cfg : SliderCfg) (s : SliderState)
    (g : Gesture) (hdb : g.downButton = 0) (hdc : g.downOnControl = false)
    (h5 : 5 ≤ (g.upX - g.downX).natAbs)
    (h50 : (g.upX - g.downX).natAbs < 50)
    (htar : g.upTarget ≠ PointerTarget.control)
    (hnav : (runGesture cfg s g).nav = none) :
    (runGesture cfg s g).state.logicalIndex = s.logicalIndex ∧
    (runGesture cfg s g).state.displayIndex = s.displayIndex ∧
    (runGesture cfg s g).advanced = none ∧
    (runGesture cfg s g).state.trackOffset = -s.displayIndex * cfg.width ∧
    (runGesture cfg s g).state.trackAnimated = true := by
  have hfields :=
    foldMoves_fields (dragBase cfg s) g.downX g.moves (downState s, false)
  simp only [runGesture] at hnav ⊢
  rw [if_neg (by simp [hdb, hdc])] at hnav ⊢
  unfold releaseRun at hnav ⊢
  rw [if_neg htar] at hnav ⊢
  by_cases hcond :
      (!(g.moves.foldl (applyMove (dragBase cfg s) g.downX)
          (downState s, false)).2
        && decide (g.upTime - g.downTime < 250) && (g.upButton == 0)) = true
  · rw [if_pos hcond] at hnav ⊢
    cases hah : anchorHrefOf g.upTarget with
    | some x =>
      rw [hah] at hnav
      exact Option.noConfusion hnav
    | none =>
      exact ⟨hfields.1, hfields.2.1, rfl,
        congrArg (fun z => -z * cfg.width) hfields.2.1, rfl⟩
  · rw [if_neg hcond] at hnav ⊢
    rw [if_neg (by omega : ¬(50 ≤ (g.upX - g.downX).natAbs))] at hnav ⊢
    exact ⟨hfields.1, hfields.2.1, rfl,
      congrArg (fun z => -z * cfg.width) hfields.2.1, rfl⟩

theorem snapback_restores_position_witness :
    (runGesture ⟨3, 100⟩ (initState ⟨3, 100⟩)
        ⟨0, 0, 0, false, [20], 20, 300, 0,
          PointerTarget.other⟩).state.trackOffset
      = -(initState ⟨3, 100⟩).displayIndex * 100 :=
  (snapback_restores_position ⟨3, 100⟩ (initState ⟨3, 100⟩)
      ⟨0, 0, 0, false, [20], 20, 300, 0, PointerTarget.other⟩
      rfl rfl (by decide) (by decide) (by decide) (by decide)).2.2.2.1

end Dacoola
